import Mathlib

/-!
Verification of the flocrawl web-content acquisition engine against its
natural-language specification.

The Python sources (flocrawl/scraper.py, flocrawl/search.py,
flocrawl/server.py, flocrawl/config.py) are shallowly embedded below.
Python strings are modelled as Lean String (a sequence of characters,
matching Python code points); byte bodies as List Nat; dictionaries with
an optional error field as structures with an Option String field, where
Python truthiness of the field is some-and-nonempty.  External
collaborators (the HTTP transport, BeautifulSoup parsing, urllib joining
and parsing, the DDGS library iterator) are modelled as parameters: the
embedded functions receive their outcomes as arguments, exactly at the
points where the source consumes them.
-/

/- ## String primitives (models of the Python str operations used) -/

/-- Model of Python list-of-characters prefix test, used to build the
substring test below. -/
def isPrefixList : List Char → List Char → Bool
  | [], _ => true
  | _ :: _, [] => false
  | a :: as, b :: bs => a == b && isPrefixList as bs

/-- Model of the Python substring test (needle occurs contiguously in hay). -/
def isInfixList (needle : List Char) : List Char → Bool
  | [] => isPrefixList needle []
  | c :: rest => isPrefixList needle (c :: rest) || isInfixList needle rest

/-- Model of Python `needle in hay` on strings. -/
def strContains (hay needle : String) : Bool :=
  isInfixList needle.data hay.data

/-- Model of Python `s.startswith(p)`. -/
def strStartsWith (s p : String) : Bool :=
  isPrefixList p.data s.data

/-- ASCII lower-casing of one character; the phrase tables scanned by the
JS detector are pure ASCII, so this models Python str.lower on the inputs
that matter for the comparison. -/
def asciiLowerChar (c : Char) : Char :=
  if 'A' ≤ c ∧ c ≤ 'Z' then Char.ofNat (c.toNat + 32) else c

/-- Model of Python `s.lower()` (ASCII range). -/
def lowerStr (s : String) : String :=
  ⟨s.data.map asciiLowerChar⟩

/-- Model of Python `s.strip()` on a character list: whitespace removed
from both ends. -/
def stripChars (l : List Char) : List Char :=
  ((l.dropWhile Char.isWhitespace).reverse.dropWhile Char.isWhitespace).reverse

/-- Model of Python `s.strip()` on strings. -/
def stripStr (s : String) : String :=
  ⟨stripChars s.data⟩

/-- Model of Python slicing `s[:n]` on strings. -/
def strTake (s : String) (n : Nat) : String :=
  ⟨s.data.take n⟩

/- ## config.py defaults -/

/-- config.py get_max_scrape_size: max bytes to fetch per URL, default
1048576 (1MB) when the CRAWL_MAX_PAGE_SIZE environment knob is absent. -/
def get_max_scrape_size : Nat := 1048576

/- ## scraper.py: JS-required-page detector -/

/-- scraper.py _JS_REQUIRED_PHRASES: phrases indicating a
please-enable-JavaScript placeholder page. -/
def _JS_REQUIRED_PHRASES : List String :=
  [ "javascript is not enabled"
  , "javascript is not supported"
  , "enable javascript"
  , "please enable javascript"
  , "browser version is not supported"
  , "browser is not supported"
  , "turn on javascript"
  , "you need to enable javascript" ]

/-- scraper.py _JS_HEAVY_DOMAINS: domains that typically require JS for
main content. -/
def _JS_HEAVY_DOMAINS : List String :=
  ["docs.google.com", "drive.google.com", "notion.so", "notion.site"]

/-- scraper.py _is_js_required_page(html, url, extracted_text): phrase
scan over the lower-cased html, then the short-text check combined with
a membership test of each JS-heavy domain string occurring anywhere in
the url (Python `d in url`, a plain substring test on the full URL). -/
def _is_js_required_page (html url extracted_text : String) : Bool :=
  let lower := lowerStr html
  if _JS_REQUIRED_PHRASES.any (fun phrase => strContains lower phrase) then
    true
  else if (stripStr extracted_text).length < 400
      && _JS_HEAVY_DOMAINS.any (fun d => strContains url d) then
    true
  else
    false

/-- Host component of a URL: the authority between the scheme separator
and the next slash, query or fragment delimiter.  Used only to state the
claim-side detector below; the source never computes a host here. -/
def afterSchemeSep : List Char → Option (List Char)
  | [] => none
  | c :: rest =>
      if isPrefixList [':', '/', '/'] (c :: rest) then
        some ((c :: rest).drop 3)
      else
        afterSchemeSep rest

/-- Host (netloc without userinfo/port handling) of a URL string. -/
def hostOf (url : String) : String :=
  match afterSchemeSep url.data with
  | some rest => ⟨rest.takeWhile (fun c => c ≠ '/' && c ≠ '?' && c ≠ '#')⟩
  | none => ""

/-- The detector as C3 words it (second, claim-side definition for the
refinement comparison): trigger 2 requires the URL HOST to be one of the
fixed JS-heavy domains. -/
def looksJsRequired_claim (html url extracted_text : String) : Bool :=
  _JS_REQUIRED_PHRASES.any (fun phrase => strContains (lowerStr html) phrase)
  || ((stripStr extracted_text).length < 400
      && _JS_HEAVY_DOMAINS.any (fun d => hostOf url == d))

/- ## scraper.py: fetch stage of scrape_url and list_links -/

/-- Outcome of the HTTP GET performed inside scrape_url / list_links:
either a response whose raise_for_status passed (body bytes plus the
transport-declared charset), or an httpx.HTTPStatusError carrying the
status code, or some other exception carrying its message string. -/
inductive FetchOutcome where
  | ok : List Nat → Option String → FetchOutcome
  | httpStatusError : Nat → FetchOutcome
  | exn : String → FetchOutcome

/-- scraper.py scrape_url, fetch stage (lines with resp.content through
the except clauses): on success the body is truncated to max_size before
being handed to decoding/extraction; the two except clauses turn
failures into error strings. -/
def scrape_url_content (maxSize : Nat) : FetchOutcome → Except String (List Nat)
  | FetchOutcome.ok body _enc =>
      Except.ok (if body.length > maxSize then body.take maxSize else body)
  | FetchOutcome.httpStatusError code => Except.error ("HTTP " ++ toString code)
  | FetchOutcome.exn msg => Except.error msg

/-- scraper.py list_links, fetch stage: the body is handed to decoding
and link extraction as-is; the source applies no size truncation here. -/
def list_links_content : FetchOutcome → Except String (List Nat)
  | FetchOutcome.ok body _enc => Except.ok body
  | FetchOutcome.httpStatusError code => Except.error ("HTTP " ++ toString code)
  | FetchOutcome.exn msg => Except.error msg

/- ## scraper.py: scrape_url text post-processing (success path) -/

/-- Model of Python text.splitlines() with newline as the line break
(the text being split was assembled with newline separators by
get_text). -/
def splitlinesChars (l : List Char) : List (List Char) :=
  match l with
  | [] => []
  | c :: rest =>
      match splitlinesChars rest with
      | [] => if c = '\n' then [[]] else [[c]]
      | ln :: lns => if c = '\n' then [] :: ln :: lns else (c :: ln) :: lns

/-- scraper.py scrape_url success path, the line
text = newline-join of line.strip() for each line of text.splitlines()
with line.strip() nonempty. -/
def postprocessText (t : List Char) : List Char :=
  List.intercalate ['\n']
    (((splitlinesChars t).map stripChars).filter (fun ln => ln ≠ []))

/-- scraper.py scrape_url success path, final text value: the
post-processed text sliced to its first 50000 characters
(text[:50000]). -/
def scrape_url_finalText (t : List Char) : List Char :=
  (postprocessText t).take 50000

/- ## scraper.py: list_links link-collection loop -/

/-- An anchor element with an href attribute, as produced by
soup.find_all with href required: the raw href attribute value and the
get_text(strip=True) result. -/
structure Anchor where
  href : String
  textA : String

/-- Result of urlparse on an absolute URL: the components the
list_links loop inspects. -/
structure UrlParts where
  scheme : String
  netloc : String

/-- One entry of the links list: the resolved absolute URL and the
display text. -/
structure LinkItem where
  href : String
  textL : String
deriving DecidableEq

/-- scraper.py list_links link-collection loop (for a in
soup.find_all("a", href=True)), parameterized by the urllib collaborators
urljoin (joinF) and urlparse (parseF).  seen models the seen set, count
the number of links collected so far; the cap is checked at the top of
every iteration. -/
def list_links_collect (parseF : String → UrlParts) (joinF : String → String → String)
    (pageUrl : String) (sameDomainOnly : Bool) (maxLinks : Nat) :
    List Anchor → List String → Nat → List LinkItem
  | [], _, _ => []
  | a :: rest, seen, count =>
      if count ≥ maxLinks then []
      else
        let href := stripStr a.href
        if href == "" || strStartsWith href "#" || strStartsWith href "mailto:" then
          list_links_collect parseF joinF pageUrl sameDomainOnly maxLinks rest seen count
        else
          let abs_url := joinF pageUrl href
          let parsed := parseF abs_url
          if !(parsed.scheme == "http" || parsed.scheme == "https") then
            list_links_collect parseF joinF pageUrl sameDomainOnly maxLinks rest seen count
          else if sameDomainOnly && !(parsed.netloc == (parseF pageUrl).netloc) then
            list_links_collect parseF joinF pageUrl sameDomainOnly maxLinks rest seen count
          else if abs_url ∈ seen then
            list_links_collect parseF joinF pageUrl sameDomainOnly maxLinks rest seen count
          else
            ⟨abs_url, strTake (if a.textA == "" then abs_url else a.textA) 200⟩
              :: list_links_collect parseF joinF pageUrl sameDomainOnly maxLinks rest
                  (abs_url :: seen) (count + 1)

/-- scraper.py list_links: the links list built from the parsed page,
starting from an empty seen set and zero collected links. -/
def list_links_links (parseF : String → UrlParts) (joinF : String → String → String)
    (pageUrl : String) (sameDomainOnly : Bool) (maxLinks : Nat)
    (anchors : List Anchor) : List LinkItem :=
  list_links_collect parseF joinF pageUrl sameDomainOnly maxLinks anchors [] 0

/- ## scraper.py: scrape_links (the crawl orchestrator) -/

/-- Python truthiness of an optional error string: a dict error field is
truthy when present and nonempty. -/
def pyTruthy : Option String → Bool
  | none => false
  | some s => !(s == "")

/-- Result dict of scrape_url as consumed by scrape_links. -/
structure ScrapedPage where
  url : String
  title : String
  text : String
  error : Option String

/-- Result dict of list_links as consumed by scrape_links. -/
structure LinkListOut where
  url : String
  links : List LinkItem
  error : Option String

/-- One entry of the pages list of a crawl result. -/
structure PageLite where
  url : String
  title : String
  text : String
deriving DecidableEq

/-- Result dict of scrape_links. -/
structure CrawlOut where
  base_url : String
  pages : List PageLite
  errors : List String
deriving DecidableEq

/-- scraper.py scrape_links per-link loop (for item in links): a failed
scrape appends one per-url error string, a successful scrape appends a
page record; scrapeF is the outcome of scrape_url for each href. -/
def scrape_links_loop (scrapeF : String → ScrapedPage) :
    List LinkItem → List PageLite × List String
  | [] => ([], [])
  | item :: rest =>
      let scraped := scrapeF item.href
      let tail := scrape_links_loop scrapeF rest
      if pyTruthy scraped.error then
        (tail.1, (item.href ++ ": " ++ scraped.error.getD "") :: tail.2)
      else
        (⟨scraped.url, scraped.title, scraped.text⟩ :: tail.1, tail.2)

/-- scraper.py scrape_links: listRes is the outcome of the initial
list_links call, scrapeF the outcome of scrape_url per link, limit the
max_pages cap.  A truthy listing error short-circuits; otherwise the
first limit links are scraped in order.  (The source's final
`errors if errors else []` is the identity on the list value.) -/
def scrape_links (listRes : LinkListOut) (scrapeF : String → ScrapedPage)
    (url : String) (limit : Nat) : CrawlOut :=
  if pyTruthy listRes.error then
    ⟨url, [], [listRes.error.getD ""]⟩
  else
    let taken := listRes.links.take limit
    let pe := scrape_links_loop scrapeF taken
    ⟨url, pe.1, pe.2⟩

/- ## scraper.py: fetch trace of the scrape_links loop -/

/-- A fetch lifecycle event: the HTTP GET for a link begins or ends. -/
inductive FetchEv where
  | start : String → FetchEv
  | stop : String → FetchEv
deriving DecidableEq

/-- Operational fetch trace of the scrape_links per-link loop: each
iteration calls scrape_url(href), whose HTTP exchange begins and fully
completes before the loop moves to the next link, so the trace is
start/stop pairs in link order with no interleaving. -/
def fetchTraceOfLinks : List String → List FetchEv
  | [] => []
  | u :: rest => FetchEv.start u :: FetchEv.stop u :: fetchTraceOfLinks rest

/-- Running maximum of the number of fetches in flight along a trace:
cur is the current in-flight count, best the maximum seen so far. -/
def maxInFlightAux : List FetchEv → Nat → Nat → Nat
  | [], _, best => best
  | e :: rest, cur, best =>
      match e with
      | FetchEv.start _ => maxInFlightAux rest (cur + 1) (max best (cur + 1))
      | FetchEv.stop _ => maxInFlightAux rest (cur - 1) best

/-- Maximum number of fetches simultaneously in flight over a trace. -/
def maxInFlight (tr : List FetchEv) : Nat :=
  maxInFlightAux tr 0 0

/- ## search.py: result normalization and strategy cascade -/

/-- One search result record: title, url, snippet. -/
structure SearchHit where
  title : String
  url : String
  snippet : String
deriving DecidableEq

/-- A raw record yielded by the DDGS library iterator; each field is an
optional dictionary entry. -/
structure RawDDG where
  rtitle : Option String
  rhref : Option String
  rurl : Option String
  rbody : Option String
  rsnippet : Option String

/-- search.py _search_duckduckgo, the append inside the iterator loop:
r.get("title", ""), r.get("href", r.get("url", "")),
r.get("body", r.get("snippet", "")). -/
def ddg_normalize (r : RawDDG) : SearchHit :=
  ⟨r.rtitle.getD "", r.rhref.getD (r.rurl.getD ""), r.rbody.getD (r.rsnippet.getD "")⟩

/-- search.py _search_duckduckgo iterator loop: append each normalized
record, then break once len(results) >= max_results (the check runs
after the append).  count is len(results) so far. -/
def ddgs_text_loop (maxResults : Nat) : List RawDDG → Nat → List SearchHit
  | [], _ => []
  | r :: rest, count =>
      let hit := ddg_normalize r
      if count + 1 ≥ maxResults then [hit]
      else hit :: ddgs_text_loop maxResults rest (count + 1)

/-- search.py _search_duckduckgo: the hits produced from the records the
DDGS library yields (count starts at zero). -/
def _search_duckduckgo_hits (maxResults : Nat) (raws : List RawDDG) : List SearchHit :=
  ddgs_text_loop maxResults raws 0

/-- The result link element of one DuckDuckGo HTML search container:
href attribute (if present) and visible text. -/
structure RawAnchor where
  ahref : Option String
  atext : String

/-- One DuckDuckGo HTML search result container: the selected link
element (if any) and the selected snippet text (if any). -/
structure RawDDGHtml where
  rlink : Option RawAnchor
  rsnip : Option String

/-- search.py _extract_ddg_url: empty href maps to empty; an absolute
http(s) href is returned as-is; an href containing a uddg= parameter is
unwrapped via urlparse/parse_qs/unquote (modelled by the uddgO
collaborator); anything else is returned as-is. -/
def _extract_ddg_url (uddgO : String → String) (href : String) : String :=
  if href == "" then ""
  else if strStartsWith href "http://" || strStartsWith href "https://" then href
  else if strContains href "uddg=" then uddgO href
  else href

/-- search.py _search_duckduckgo_html selection loop: containers without
a link element are skipped; the unwrapped URL is kept only when nonempty
and http(s)-absolute; the cap check runs after each append.  count is
len(results) so far. -/
def ddg_html_loop (uddgO : String → String) (maxResults : Nat) :
    List RawDDGHtml → Nat → List SearchHit
  | [], _ => []
  | r :: rest, count =>
      match r.rlink with
      | none => ddg_html_loop uddgO maxResults rest count
      | some link =>
          let href := link.ahref.getD ""
          let real_url := _extract_ddg_url uddgO href
          if !(real_url == "")
              && (strStartsWith real_url "http://" || strStartsWith real_url "https://") then
            let hit : SearchHit := ⟨link.atext, real_url, r.rsnip.getD ""⟩
            if count + 1 ≥ maxResults then [hit]
            else hit :: ddg_html_loop uddgO maxResults rest (count + 1)
          else
            ddg_html_loop uddgO maxResults rest count

/-- search.py _search_duckduckgo_html: the soup.select list is sliced to
max_results + 5 containers before the loop runs. -/
def _search_duckduckgo_html_hits (uddgO : String → String) (maxResults : Nat)
    (raws : List RawDDGHtml) : List SearchHit :=
  ddg_html_loop uddgO maxResults (raws.take (maxResults + 5)) 0

/-- One Google HTML search result container (soup.select on div.g and
div with data-hveid): the selected h3 title element's text (if the
element exists), the selected a-with-href link element (if any), and the
selected snippet element's text (if any). -/
structure RawGoogle where
  gtitle : Option String
  glink : Option RawAnchor
  gsnippet : Option String

/-- search.py _search_google_html selection loop: containers missing the
title or the link element are skipped; an href starting with /url? is
unwrapped via urlparse/parse_qs with the original href as fallback
(modelled by the qO collaborator); non-http(s) hrefs are discarded; the
cap check runs after each append.  count is len(results) so far. -/
def google_html_loop (qO : String → String) (maxResults : Nat) :
    List RawGoogle → Nat → List SearchHit
  | [], _ => []
  | g :: rest, count =>
      match g.gtitle, g.glink with
      | some title, some link =>
          let href0 := link.ahref.getD ""
          let href := if strStartsWith href0 "/url?" then qO href0 else href0
          if !(strStartsWith href "http://" || strStartsWith href "https://") then
            google_html_loop qO maxResults rest count
          else
            let hit : SearchHit := ⟨title, href, g.gsnippet.getD ""⟩
            if count + 1 ≥ maxResults then [hit]
            else hit :: google_html_loop qO maxResults rest (count + 1)
      | _, _ => google_html_loop qO maxResults rest count

/-- search.py _search_google_html: the hits produced from the selected
containers (no pre-slice here; the num request parameter only shapes the
HTTP query). -/
def _search_google_html_hits (qO : String → String) (maxResults : Nat)
    (raws : List RawGoogle) : List SearchHit :=
  google_html_loop qO maxResults raws 0

/-- Outcome of one search strategy call as search_web observes it:
either a list of hits, or an exception (caught by the per-strategy
except clause). -/
inductive StratOutcome where
  | hits : List SearchHit → StratOutcome
  | exn : String → StratOutcome

/-- The hits a strategy outcome contributes: an exception is caught and
treated like an empty result (the resolver proceeds either way). -/
def strat_results : StratOutcome → List SearchHit
  | StratOutcome.hits l => l
  | StratOutcome.exn _ => []

/-- search.py search_web: try the DDGS library strategy, then the
DuckDuckGo HTML fallback, then the Google HTML fallback, returning the
first non-empty result list; when every strategy yields nothing (empty
or exception), return the empty list. -/
def search_web_model (s1 s2 s3 : StratOutcome) : List SearchHit :=
  if strat_results s1 ≠ [] then strat_results s1
  else if strat_results s2 ≠ [] then strat_results s2
  else if strat_results s3 ≠ [] then strat_results s3
  else []

/- ## server.py: scrape_urls_tool -/

/-- Result record of scrape_urls_async / scrape_urls_tool. -/
structure CrawlPagesOut where
  pages : List PageLite
  errors : List String
deriving DecidableEq

/-- server.py _normalize_urls_input, list branch:
[str(u).strip() for u in urls if u]. -/
def normalize_urls_input (urls : List String) : List String :=
  (urls.filter (fun u => !(u == ""))).map stripStr

/-- server.py scrape_urls_tool: normalize the input; an empty normalized
list returns pages [] and the single error "No valid URLs provided"
without calling scrape_urls_async (modelled by the scrapeUrlsAsync
collaborator, which performs all network activity). -/
def scrape_urls_tool (scrapeUrlsAsync : List String → CrawlPagesOut)
    (urls : List String) : CrawlPagesOut :=
  let url_list := normalize_urls_input urls
  if url_list = [] then
    ⟨[], ["No valid URLs provided"]⟩
  else
    scrapeUrlsAsync url_list

/- ## Helper lemmas -/

theorem maxInFlightAux_trace_le (links : List String) :
    ∀ best : Nat, maxInFlightAux (fetchTraceOfLinks links) 0 best ≤ max best 1 := by
  induction links with
  | nil =>
      intro best
      simp [fetchTraceOfLinks, maxInFlightAux]
  | cons u rest ih =>
      intro best
      have step :
          maxInFlightAux (fetchTraceOfLinks (u :: rest)) 0 best
            = maxInFlightAux (fetchTraceOfLinks rest) 0 (max best 1) := by
        simp [fetchTraceOfLinks, maxInFlightAux]
      rw [step]
      calc maxInFlightAux (fetchTraceOfLinks rest) 0 (max best 1)
          ≤ max (max best 1) 1 := ih (max best 1)
        _ = max best 1 := by
            rw [Nat.max_assoc]
            simp

/- ## C1 -/

/-- C1 counterexample: the claim says the discovered links are fetched
concurrently under an admission gate, so that with a batch of N = 3 URLs
and a concurrency limit K = 2 < N, up to two fetches are in flight
together while pending URLs remain.  In the code the per-link loop of
scrape_links is strictly sequential (each scrape_url call completes
before the next link is touched), so on this concrete 3-link batch the
in-flight count never exceeds one: no two fetches ever overlap, and no
configured concurrency limit exists in config.py at all. -/
theorem C1_counterexample :
    maxInFlight (fetchTraceOfLinks ["http://s/1", "http://s/2", "http://s/3"]) = 1
    ∧ ¬ (2 ≤ maxInFlight (fetchTraceOfLinks ["http://s/1", "http://s/2", "http://s/3"])) := by
  decide

/-- C1 (amended): in scrape_links the links discovered on the start page
are fetched strictly sequentially, one at a time; at no point is more
than one fetch in flight, which trivially satisfies any bound K of at
least one. -/
theorem C1_theorem (links : List String) (limit : Nat) :
    maxInFlight (fetchTraceOfLinks (links.take limit)) ≤ 1 := by
  have h := maxInFlightAux_trace_le (links.take limit) 0
  simpa [maxInFlight] using h

/- ## C2 -/

/-- C2 counterexample: list_links hands the full response body to
decoding and link extraction without applying the maxBytes cap.  A body
of get_max_scrape_size + 1 bytes reaches extraction whole, exceeding the
configured maximum page size. -/
theorem C2_counterexample :
    list_links_content (FetchOutcome.ok (List.replicate (get_max_scrape_size + 1) 0) none)
        = Except.ok (List.replicate (get_max_scrape_size + 1) 0)
    ∧ (List.replicate (get_max_scrape_size + 1) 0).length = get_max_scrape_size + 1
    ∧ ¬ (get_max_scrape_size + 1 ≤ get_max_scrape_size) := by
  refine ⟨rfl, by simp, by omega⟩

/-- C2 (amended): in scrape_url a successful fetch always hands
extraction exactly the first maxBytes bytes of the body (silently, as a
successful — not error — outcome, whatever the body size), and that
truncated body is never longer than maxBytes; in list_links the body is
handed to extraction untruncated. -/
theorem C2_theorem (maxSize : Nat) (body : List Nat) (enc : Option String) :
    scrape_url_content maxSize (FetchOutcome.ok body enc) = Except.ok (body.take maxSize)
    ∧ (body.take maxSize).length ≤ maxSize
    ∧ list_links_content (FetchOutcome.ok body enc) = Except.ok body := by
  refine ⟨?_, ?_, rfl⟩
  · simp only [scrape_url_content]
    split
    · rfl
    · next h =>
        rw [List.take_of_length_le (by omega)]
  · simp [List.length_take]

/- ## C6 -/

/-- C6 counterexample: scrape_urls_tool on the empty URL list does not
return the empty errors list the claim states; it reports the single
error string "No valid URLs provided" (still with no network activity,
as the scrape collaborator is never consulted). -/
theorem C6_counterexample :
    ¬ (scrape_urls_tool (fun _ => ⟨[], []⟩) [] = ⟨[], []⟩)
    ∧ (scrape_urls_tool (fun _ => ⟨[], []⟩) []).errors = ["No valid URLs provided"] := by
  decide

/-- C6 (amended): scrape_urls_tool applied to an empty URL list returns
pages [] and errors ["No valid URLs provided"] immediately; the result
is the same for every scrape collaborator, so no network request is
performed. -/
theorem C6_theorem (scrapeUrlsAsync : List String → CrawlPagesOut) :
    scrape_urls_tool scrapeUrlsAsync [] = ⟨[], ["No valid URLs provided"]⟩ := rfl

/- ## C8 -/

/-- C8: the text scrape_url returns to its caller is never longer than
50000 characters, and the truncation is the final step: the returned
text is an initial segment of the post-processed (blank-lines-removed,
per-line-trimmed, rejoined) text.  The quantification is over every
possible extracted text, so the bound holds for every input page; the
embedded pipeline is a total function. -/
theorem C8_theorem (t : List Char) :
    (scrape_url_finalText t).length ≤ 50000
    ∧ ∃ rest, scrape_url_finalText t ++ rest = postprocessText t := by
  constructor
  · simp only [scrape_url_finalText, List.length_take]
    omega
  · exact ⟨(postprocessText t).drop 50000, List.take_append_drop _ _⟩

theorem is_js_required_bool (html url extracted_text : String) :
    _is_js_required_page html url extracted_text
      = (_JS_REQUIRED_PHRASES.any (fun phrase => strContains (lowerStr html) phrase)
          || (decide ((stripStr extracted_text).length < 400)
              && _JS_HEAVY_DOMAINS.any (fun d => strContains url d))) := by
  simp only [_is_js_required_page]
  cases h1 : _JS_REQUIRED_PHRASES.any (fun phrase => strContains (lowerStr html) phrase) <;>
    cases h2 : (decide ((stripStr extracted_text).length < 400)
        && _JS_HEAVY_DOMAINS.any (fun d => strContains url d)) <;>
      simp [h1, h2]

/- ## C3 -/

/-- C3 counterexample: trigger 2 of _is_js_required_page tests each
JS-heavy domain as a substring of the whole URL (Python d in url), not
of its host.  For a page with no placeholder phrase, empty extracted
text, and the URL http://evil.example/docs.google.com — whose host
evil.example is not in the fixed list but whose path contains a listed
domain — the code fires, while the claim (host-based trigger, restated
as looksJsRequired_claim) says it must not. -/
theorem C3_counterexample :
    _is_js_required_page "<p>hi</p>" "http://evil.example/docs.google.com" "" = true
    ∧ looksJsRequired_claim "<p>hi</p>" "http://evil.example/docs.google.com" "" = false
    ∧ hostOf "http://evil.example/docs.google.com" = "evil.example" := by
  decide

/-- C3 (amended): _is_js_required_page returns true exactly when either
the lower-cased raw HTML contains one of the fixed placeholder phrases,
or the stripped extracted text is shorter than 400 characters and one of
the fixed JS-dependent domain strings occurs as a substring anywhere in
the URL (not only as its host). -/
theorem C3_theorem (html url extracted_text : String) :
    _is_js_required_page html url extracted_text = true ↔
      ((∃ p ∈ _JS_REQUIRED_PHRASES, strContains (lowerStr html) p = true)
        ∨ ((stripStr extracted_text).length < 400
            ∧ ∃ d ∈ _JS_HEAVY_DOMAINS, strContains url d = true)) := by
  rw [is_js_required_bool]
  simp [List.any_eq_true]

/- ## C4 -/

theorem ddg_html_loop_all_http (uddgO : String → String) (m : Nat) :
    ∀ (raws : List RawDDGHtml) (count : Nat),
      (ddg_html_loop uddgO m raws count).all
        (fun h => !(h.url == "")
          && (strStartsWith h.url "http://" || strStartsWith h.url "https://")) = true := by
  intro raws
  induction raws with
  | nil =>
      intro count
      simp [ddg_html_loop]
  | cons r rest ih =>
      intro count
      cases hl : r.rlink with
      | none => simpa [ddg_html_loop, hl] using ih count
      | some link =>
          simp only [ddg_html_loop, hl]
          generalize _extract_ddg_url uddgO (link.ahref.getD "") = ru
          by_cases hg : (!(ru == "")
              && (strStartsWith ru "http://" || strStartsWith ru "https://")) = true
          · rw [if_pos hg]
            by_cases hc : count + 1 ≥ m
            · rw [if_pos hc]
              simp [List.all_cons, hg]
            · rw [if_neg hc]
              simp [List.all_cons, hg, ih (count + 1)]
          · rw [if_neg hg]
            exact ih count

/-- C4 counterexample: the DDGS-library strategy appends every record the
library yields after defaulting missing fields to empty strings, with no
emptiness filter.  A single raw record with no fields at all is
normalized to the fully-empty hit, retained, and — being a non-empty
result list — returned by search_web as its final answer, so the
resolver output contains a hit whose title, url and snippet are all
empty. -/
theorem C4_counterexample :
    search_web_model
        (StratOutcome.hits (_search_duckduckgo_hits 10 [⟨none, none, none, none, none⟩]))
        (StratOutcome.exn "x") (StratOutcome.exn "y")
      = [⟨"", "", ""⟩]
    ∧ ((_search_duckduckgo_hits 10 [⟨none, none, none, none, none⟩]).all
        (fun h => !(h.title == "") || !(h.url == "") || !(h.snippet == ""))) = false := by
  decide

/-- C4 (amended): hits produced by the DuckDuckGo HTML-scrape strategy
always carry a non-empty absolute http(s) url (containers without a link
element are skipped and non-http(s) resolved urls are discarded), so at
least one field of each such hit is non-empty; the DDGS-library strategy,
however, applies no emptiness filter, so a raw record with all fields
missing or empty yields a fully-empty hit in the resolver output. -/
theorem C4_theorem (uddgO : String → String) (maxResults : Nat) (raws : List RawDDGHtml) :
    (_search_duckduckgo_html_hits uddgO maxResults raws).all
      (fun h => !(h.url == "")
        && (strStartsWith h.url "http://" || strStartsWith h.url "https://")) = true := by
  exact ddg_html_loop_all_http uddgO maxResults (raws.take (maxResults + 5)) 0

/- ## C5 -/

theorem ddgs_text_loop_eq (m : Nat) :
    ∀ (raws : List RawDDG) (count : Nat),
      ddgs_text_loop m raws count = (raws.take (max (m - count) 1)).map ddg_normalize := by
  intro raws
  induction raws with
  | nil =>
      intro count
      simp [ddgs_text_loop]
  | cons r rest ih =>
      intro count
      simp only [ddgs_text_loop]
      by_cases hc : count + 1 ≥ m
      · rw [if_pos hc]
        have h1 : max (m - count) 1 = 1 := max_eq_right (by omega)
        rw [h1]
        simp
      · rw [if_neg hc]
        obtain ⟨k, hk⟩ : ∃ k, m - count = k + 1 := ⟨m - count - 1, by omega⟩
        have h2 : max (m - count) 1 = k + 1 := by
          rw [max_eq_left (by omega)]
          exact hk
        have h3 : max (m - (count + 1)) 1 = k := by
          rw [max_eq_left (by omega)]
          omega
        rw [ih (count + 1), h2, h3]
        simp

theorem ddg_html_loop_length_le (uddgO : String → String) (m : Nat) :
    ∀ (raws : List RawDDGHtml) (count : Nat),
      (ddg_html_loop uddgO m raws count).length ≤ max (m - count) 1 := by
  intro raws
  induction raws with
  | nil =>
      intro count
      simp [ddg_html_loop]
  | cons r rest ih =>
      intro count
      cases hl : r.rlink with
      | none =>
          have h := ih count
          simp only [ddg_html_loop, hl]
          exact h
      | some link =>
          simp only [ddg_html_loop, hl]
          generalize _extract_ddg_url uddgO (link.ahref.getD "") = ru
          by_cases hg : (!(ru == "")
              && (strStartsWith ru "http://" || strStartsWith ru "https://")) = true
          · rw [if_pos hg]
            by_cases hc : count + 1 ≥ m
            · rw [if_pos hc]
              simp only [List.length_cons, List.length_nil]
              exact le_max_right (m - count) 1
            · rw [if_neg hc]
              simp only [List.length_cons]
              have h := ih (count + 1)
              rw [max_eq_left (by omega : (1 : Nat) ≤ m - (count + 1))] at h
              rw [max_eq_left (by omega : (1 : Nat) ≤ m - count)]
              omega
          · rw [if_neg hg]
            exact ih count

theorem google_html_loop_length_le (qO : String → String) (m : Nat) :
    ∀ (raws : List RawGoogle) (count : Nat),
      (google_html_loop qO m raws count).length ≤ max (m - count) 1 := by
  intro raws
  induction raws with
  | nil =>
      intro count
      simp [google_html_loop]
  | cons g rest ih =>
      intro count
      cases ht : g.gtitle with
      | none =>
          have h := ih count
          simp only [google_html_loop, ht]
          exact h
      | some title =>
          cases hk : g.glink with
          | none =>
              have h := ih count
              simp only [google_html_loop, ht, hk]
              exact h
          | some link =>
              simp only [google_html_loop, ht, hk]
              generalize (if strStartsWith (link.ahref.getD "") "/url?"
                  then qO (link.ahref.getD "") else link.ahref.getD "") = href
              by_cases hg : (!(strStartsWith href "http://"
                  || strStartsWith href "https://")) = true
              · rw [if_pos hg]
                exact ih count
              · rw [if_neg hg]
                by_cases hc : count + 1 ≥ m
                · rw [if_pos hc]
                  simp only [List.length_cons, List.length_nil]
                  exact le_max_right (m - count) 1
                · rw [if_neg hc]
                  simp only [List.length_cons]
                  have h := ih (count + 1)
                  rw [max_eq_left (by omega : (1 : Nat) ≤ m - (count + 1))] at h
                  rw [max_eq_left (by omega : (1 : Nat) ≤ m - count)]
                  omega

/-- C5 counterexample: every strategy loop checks the result cap only
after appending, so with maxResults = 0 one accepted record yields one
hit — the returned list is longer than maxResults.  Concretely, the
DuckDuckGo HTML strategy called with maxResults = 0 on a single valid
container returns one hit, and search_web (strategy 1 empty) returns
that one-element list, violating the claimed cap. -/
theorem C5_counterexample :
    (_search_duckduckgo_html_hits (fun s => s) 0
        [⟨some ⟨some "https://x.example/", "t"⟩, some "s"⟩]).length = 1
    ∧ ¬ ((_search_duckduckgo_html_hits (fun s => s) 0
        [⟨some ⟨some "https://x.example/", "t"⟩, some "s"⟩]).length ≤ 0)
    ∧ search_web_model (StratOutcome.hits [])
        (StratOutcome.hits (_search_duckduckgo_html_hits (fun s => s) 0
          [⟨some ⟨some "https://x.example/", "t"⟩, some "s"⟩]))
        (StratOutcome.exn "e")
      = [⟨"t", "https://x.example/", "s"⟩] := by
  decide

/-- C5 (amended): search_web tries its three strategies strictly in
order and returns the first non-empty hit list — when strategy 1 yields
hits the later strategies never influence the result, when strategy 1
yields nothing and strategy 2 yields hits those are returned, and when
every strategy yields nothing (empty result or caught exception) the
resolver returns the empty list rather than an error; each of the three
strategies (DDGS library, DuckDuckGo HTML, Google HTML) returns at most
maxResults hits provided maxResults is at least 1 (for maxResults = 0 a
single hit may still be returned, as every loop checks the cap only
after an append). -/
theorem C5_theorem (s1 s2 s3 : StratOutcome) (l : List SearchHit)
    (uddgO qO : String → String) (m : Nat) (rawsD : List RawDDG)
    (rawsH : List RawDDGHtml) (rawsG : List RawGoogle) :
    (strat_results s1 = l → l ≠ [] → search_web_model s1 s2 s3 = l)
    ∧ (strat_results s1 = [] → strat_results s2 = l → l ≠ []
        → search_web_model s1 s2 s3 = l)
    ∧ (strat_results s1 = [] → strat_results s2 = [] → strat_results s3 = []
        → search_web_model s1 s2 s3 = [])
    ∧ (1 ≤ m → (_search_duckduckgo_hits m rawsD).length ≤ m)
    ∧ (1 ≤ m → (_search_duckduckgo_html_hits uddgO m rawsH).length ≤ m)
    ∧ (1 ≤ m → (_search_google_html_hits qO m rawsG).length ≤ m) := by
  refine ⟨?_, ?_, ?_, ?_, ?_, ?_⟩
  · intro h1 h2
    simp [search_web_model, h1, h2]
  · intro h0 h1 h2
    simp [search_web_model, h0, h1, h2]
  · intro h0 h1 h2
    simp [search_web_model, h0, h1, h2]
  · intro hm
    have h := ddgs_text_loop_eq m rawsD 0
    simp only [_search_duckduckgo_hits, h, Nat.sub_zero, List.length_map, List.length_take]
    rw [max_eq_left hm]
    exact min_le_left _ _
  · intro hm
    have h := ddg_html_loop_length_le uddgO m (rawsH.take (m + 5)) 0
    rw [Nat.sub_zero, max_eq_left hm] at h
    exact h
  · intro hm
    have h := google_html_loop_length_le qO m rawsG 0
    rw [Nat.sub_zero, max_eq_left hm] at h
    exact h

/-- C5 witness: strategy 1 empty and strategy 2 one hit returns exactly
that hit without consulting strategy 3; the DDGS and Google caps hold at
a concrete maxResults of 3, the latter on a concrete container that the
loop accepts. -/
theorem C5_witness :
    search_web_model (StratOutcome.hits []) (StratOutcome.hits [⟨"t", "https://u/", "s"⟩])
        (StratOutcome.exn "z") = [⟨"t", "https://u/", "s"⟩]
    ∧ (_search_duckduckgo_hits 3 []).length ≤ 3
    ∧ (_search_google_html_hits (fun s => s) 3
        [⟨some "t", some ⟨some "https://g.example/", "g"⟩, some "s"⟩]).length ≤ 3 := by
  have h1 := C5_theorem (StratOutcome.hits []) (StratOutcome.hits [⟨"t", "https://u/", "s"⟩])
      (StratOutcome.exn "z") [⟨"t", "https://u/", "s"⟩] (fun s => s) (fun s => s) 3 [] [] []
  have h2 := C5_theorem (StratOutcome.hits []) (StratOutcome.hits []) (StratOutcome.exn "z")
      [] (fun s => s) (fun s => s) 3 [] []
      [⟨some "t", some ⟨some "https://g.example/", "g"⟩, some "s"⟩]
  exact ⟨h1.2.1 rfl rfl (by decide), h2.2.2.2.1 (by decide), h2.2.2.2.2.2 (by decide)⟩

/- ## C7 and C10 -/

theorem scrape_links_loop_spec (scrapeF : String → ScrapedPage) :
    ∀ links : List LinkItem,
      (scrape_links_loop scrapeF links).1
          = (links.filter (fun it => !(pyTruthy (scrapeF it.href).error))).map
              (fun it => ⟨(scrapeF it.href).url, (scrapeF it.href).title,
                          (scrapeF it.href).text⟩)
      ∧ (scrape_links_loop scrapeF links).2
          = (links.filter (fun it => pyTruthy (scrapeF it.href).error)).map
              (fun it => it.href ++ ": " ++ (scrapeF it.href).error.getD "") := by
  intro links
  induction links with
  | nil => simp [scrape_links_loop]
  | cons item rest ih =>
      by_cases h : pyTruthy (scrapeF item.href).error = true
      · constructor
        · simp [scrape_links_loop, h, ih.1]
        · simp [scrape_links_loop, h, ih.2]
      · have h' : pyTruthy (scrapeF item.href).error = false := by
          revert h
          cases pyTruthy (scrapeF item.href).error <;> simp
        constructor
        · simp [scrape_links_loop, h', ih.1]
        · simp [scrape_links_loop, h', ih.2]

/-- C7: in scrape_links, a truthy link-listing error short-circuits the
whole operation to zero pages with the listing error as the only
recorded error; otherwise each scraped link whose result carries an
error contributes exactly one per-url error string (href, colon, error)
and is excluded from pages, while every successfully scraped link still
yields a page — individual failures never fail the whole operation. -/
theorem C7_theorem (listRes : LinkListOut) (scrapeF : String → ScrapedPage)
    (url : String) (limit : Nat) :
    (pyTruthy listRes.error = true →
        (scrape_links listRes scrapeF url limit).pages = []
        ∧ (scrape_links listRes scrapeF url limit).errors = [listRes.error.getD ""])
    ∧ (pyTruthy listRes.error = false →
        (scrape_links listRes scrapeF url limit).errors
            = ((listRes.links.take limit).filter
                (fun it => pyTruthy (scrapeF it.href).error)).map
                (fun it => it.href ++ ": " ++ (scrapeF it.href).error.getD "")
        ∧ (scrape_links listRes scrapeF url limit).pages
            = ((listRes.links.take limit).filter
                (fun it => !(pyTruthy (scrapeF it.href).error))).map
                (fun it => ⟨(scrapeF it.href).url, (scrapeF it.href).title,
                            (scrapeF it.href).text⟩)) := by
  constructor
  · intro h
    simp [scrape_links, h]
  · intro h
    have hspec := scrape_links_loop_spec scrapeF (listRes.links.take limit)
    constructor
    · simp [scrape_links, h, hspec.2]
    · simp [scrape_links, h, hspec.1]

/-- C7 witness: a failed listing with error boom yields zero pages and
only that error; a successful listing of two links where the first
scrape fails with nope yields exactly one per-url error string and one
page for the surviving link. -/
theorem C7_witness :
    ((scrape_links ⟨"http://s/", [], some "boom"⟩
        (fun h => ⟨h, "", "", none⟩) "http://s/" 5).pages = []
      ∧ (scrape_links ⟨"http://s/", [], some "boom"⟩
        (fun h => ⟨h, "", "", none⟩) "http://s/" 5).errors = [(some "boom").getD ""])
    ∧ ((scrape_links ⟨"http://s/", [⟨"http://s/a", "A"⟩, ⟨"http://s/b", "B"⟩], none⟩
        (fun h => if h == "http://s/a" then ⟨h, "", "", some "nope"⟩
                  else ⟨h, "T", "X", none⟩) "http://s/" 5).errors
        = ["http://s/a: nope"]
      ∧ (scrape_links ⟨"http://s/", [⟨"http://s/a", "A"⟩, ⟨"http://s/b", "B"⟩], none⟩
        (fun h => if h == "http://s/a" then ⟨h, "", "", some "nope"⟩
                  else ⟨h, "T", "X", none⟩) "http://s/" 5).pages
        = [⟨"http://s/b", "T", "X"⟩]) := by
  have h1 := C7_theorem ⟨"http://s/", [], some "boom"⟩
      (fun h => ⟨h, "", "", none⟩) "http://s/" 5
  have h2 := C7_theorem ⟨"http://s/", [⟨"http://s/a", "A"⟩, ⟨"http://s/b", "B"⟩], none⟩
      (fun h => if h == "http://s/a" then ⟨h, "", "", some "nope"⟩
                else ⟨h, "T", "X", none⟩) "http://s/" 5
  refine ⟨h1.1 (by decide), ?_⟩
  have h3 := h2.2 (by decide)
  exact ⟨h3.1.trans (by decide), h3.2.trans (by decide)⟩

/-- C10: the pages of a crawl are a deterministic function of the link
listing and the per-link fetch outcomes: they are exactly the links in
the discovery order the link extractor produced (truncated to the page
limit), restricted to those whose scrape succeeded — the sequential loop
preserves discovery order, so identical fetch outcomes always give the
identical page sequence. -/
theorem C10_theorem (listRes : LinkListOut) (scrapeF : String → ScrapedPage)
    (url : String) (limit : Nat) :
    (scrape_links listRes scrapeF url limit).pages
      = if pyTruthy listRes.error = true then []
        else ((listRes.links.take limit).filter
            (fun it => !(pyTruthy (scrapeF it.href).error))).map
            (fun it => ⟨(scrapeF it.href).url, (scrapeF it.href).title,
                        (scrapeF it.href).text⟩) := by
  by_cases h : pyTruthy listRes.error = true
  · simp [scrape_links, h]
  · have h' : pyTruthy listRes.error = false := by
      revert h
      cases pyTruthy listRes.error <;> simp
    have hspec := scrape_links_loop_spec scrapeF (listRes.links.take limit)
    simp [scrape_links, h', hspec.1]

/- ## C9 -/

theorem list_links_collect_spec (parseF : String → UrlParts) (joinF : String → String → String)
    (pageUrl : String) (sdo : Bool) (maxLinks : Nat) :
    ∀ (anchors : List Anchor) (seen : List String) (count : Nat),
      ((list_links_collect parseF joinF pageUrl sdo maxLinks anchors seen count).map
          LinkItem.href).Nodup
      ∧ ∀ l ∈ list_links_collect parseF joinF pageUrl sdo maxLinks anchors seen count,
          l.href ∉ seen
          ∧ ((parseF l.href).scheme = "http" ∨ (parseF l.href).scheme = "https")
          ∧ (sdo = true → (parseF l.href).netloc = (parseF pageUrl).netloc) := by
  intro anchors
  induction anchors with
  | nil =>
      intro seen count
      simp [list_links_collect]
  | cons a rest ih =>
      intro seen count
      by_cases hcap : count ≥ maxLinks
      · simp [list_links_collect, hcap]
      · simp only [list_links_collect]
        rw [if_neg hcap]
        generalize stripStr a.href = href0
        by_cases hskip : (href0 == "" || strStartsWith href0 "#"
            || strStartsWith href0 "mailto:") = true
        · rw [if_pos hskip]
          exact ih seen count
        · rw [if_neg hskip]
          generalize habs : joinF pageUrl href0 = abs
          by_cases hsch : (!((parseF abs).scheme == "http"
              || (parseF abs).scheme == "https")) = true
          · rw [if_pos hsch]
            exact ih seen count
          · rw [if_neg hsch]
            by_cases hdom : (sdo && !((parseF abs).netloc == (parseF pageUrl).netloc)) = true
            · rw [if_pos hdom]
              exact ih seen count
            · rw [if_neg hdom]
              by_cases hmem : abs ∈ seen
              · rw [if_pos hmem]
                exact ih seen count
              · rw [if_neg hmem]
                obtain ⟨ihN, ihP⟩ := ih (abs :: seen) (count + 1)
                constructor
                · simp only [List.map_cons, List.nodup_cons]
                  refine ⟨?_, ihN⟩
                  intro hin
                  rcases List.mem_map.mp hin with ⟨x, hx, hxe⟩
                  exact (ihP x hx).1 (hxe ▸ List.mem_cons_self _ _)
                · intro l hl
                  rcases List.mem_cons.mp hl with hl | hl
                  · subst hl
                    refine ⟨hmem, ?_, ?_⟩
                    · have h2 : ((parseF abs).scheme == "http"
                          || (parseF abs).scheme == "https") = true := by
                        revert hsch
                        cases ((parseF abs).scheme == "http"
                            || (parseF abs).scheme == "https") <;> simp
                      rcases (Bool.or_eq_true _ _).mp h2 with h3 | h3
                      · exact Or.inl (by simpa using h3)
                      · exact Or.inr (by simpa using h3)
                    · intro hsdo
                      subst hsdo
                      have h4 : (!((parseF abs).netloc
                          == (parseF pageUrl).netloc)) = false := by
                        revert hdom
                        cases (!((parseF abs).netloc == (parseF pageUrl).netloc)) <;> simp
                      have h5 : ((parseF abs).netloc == (parseF pageUrl).netloc) = true := by
                        revert h4
                        cases ((parseF abs).netloc == (parseF pageUrl).netloc) <;> simp
                      simpa using h5
                  · have hx := ihP l hl
                    exact ⟨fun hmem2 => hx.1 (List.mem_cons_of_mem _ hmem2),
                      hx.2.1, hx.2.2⟩

/-- C9: the link list produced by the list_links collection loop never
contains two entries with the same absolute URL (the seen set makes the
first occurrence win), every entry's resolved URL has scheme http or
https, and with sameDomainOnly set every entry's netloc — the host
component urlparse compares — equals the page URL's netloc exactly,
whatever the parser and resolver collaborators return. -/
theorem C9_theorem (parseF : String → UrlParts) (joinF : String → String → String)
    (pageUrl : String) (sdo : Bool) (maxLinks : Nat) (anchors : List Anchor) :
    ((list_links_links parseF joinF pageUrl sdo maxLinks anchors).map LinkItem.href).Nodup
    ∧ (list_links_links parseF joinF pageUrl sdo maxLinks anchors).all
        (fun l => (parseF l.href).scheme == "http" || (parseF l.href).scheme == "https")
        = true
    ∧ (list_links_links parseF joinF pageUrl true maxLinks anchors).all
        (fun l => (parseF l.href).netloc == (parseF pageUrl).netloc) = true := by
  refine ⟨(list_links_collect_spec parseF joinF pageUrl sdo maxLinks anchors [] 0).1,
    ?_, ?_⟩
  · rw [List.all_eq_true]
    intro l hl
    have h := ((list_links_collect_spec parseF joinF pageUrl sdo maxLinks
        anchors [] 0).2 l hl).2.1
    rcases h with h | h <;> simp [h]
  · rw [List.all_eq_true]
    intro l hl
    have h := ((list_links_collect_spec parseF joinF pageUrl true maxLinks
        anchors [] 0).2 l hl).2.2 rfl
    simp [h]
